import Mathlib

/-!
Verification of the hotel booking platform backend (`backend/services.py`,
`backend/models.py`, `backend/database.py`).

Shallow embedding conventions:
- Python `date` values are modelled as `Int` (days); `datetime` timestamps as
  `Int` (seconds).  The ambient `date.today()` and `datetime.utcnow()` are
  passed explicitly as `today` and `now` parameters.
- Python dicts keyed by uuid strings are modelled as lists of records carrying
  their own `id : Nat`; dict insertion appends, dict lookup is `List.find?`.
- The guest email string is modelled as an abstract identity `Nat`.
- Prices (`float` in Python, integral in all data the system creates) are
  modelled as `Int`.
- Exceptions raised by `create_booking` become an `Except BookingError` value;
  the mutated service state is returned alongside.
-/

namespace HotelBooking

/-- Model of `models.BookingStatus`. -/
inductive BookingStatus where
  | confirmed
  | cancelled
  | pending
deriving DecidableEq

/-- Model of `models.Room` (fields relevant to the booking logic). -/
structure Room where
  id : Nat
  hotel_id : Nat
  price : Int
deriving DecidableEq

/-- Model of `models.Booking` (fields relevant to the booking logic). -/
structure Booking where
  id : Nat
  room_id : Nat
  hotel_id : Nat
  guest_email : Nat
  check_in_date : Int
  check_out_date : Int
  total_price : Int
  status : BookingStatus
deriving DecidableEq

/-- Model of `models.BookingRequest`. -/
structure BookingRequest where
  room_id : Nat
  guest_email : Nat
  check_in_date : Int
  check_out_date : Int
deriving DecidableEq

/-- The five `ValueError` messages `BookingService.create_booking` can raise. -/
inductive BookingError where
  | rateLimited
  | notFound
  | invalidRange
  | pastDate
  | conflict
deriving DecidableEq

/-- Mutable state of `BookingService` together with the parts of
`DatabaseManager` it reads and writes: `db.rooms`, `db.bookings` and the
per-email rate-limiter timestamp lists `_requests_by_email` (a defaultdict,
modelled as a total function into lists). -/
structure BookingState where
  rooms : List Room
  bookings : List Booking
  requestsByEmail : Nat → List Int

/-- Constant `BookingService._rate_limit_window`, 60 seconds. -/
def rateLimitWindow : Int := 60

/-- Constant `BookingService._rate_limit_max`, 5 attempts. -/
def rateLimitMax : Nat := 5

/-- The timestamp pruning done by `_is_rate_limited`:
`[t for t in timestamps if t >= window_start]`. -/
def pruneTimestamps (timestamps : List Int) (windowStart : Int) : List Int :=
  timestamps.filter (fun t => decide (windowStart ≤ t))

/-- Model of `BookingService._is_rate_limited`, returning the boolean result and the
updated `_requests_by_email` map. -/
def isRateLimited (requests : Nat → List Int) (email : Nat) (now : Int) :
    Bool × (Nat → List Int) :=
  let pruned := pruneTimestamps (requests email) (now - rateLimitWindow)
  if rateLimitMax ≤ pruned.length then
    (true, fun e => if e = email then pruned else requests e)
  else
    (false, fun e => if e = email then pruned ++ [now] else requests e)

/-- Lookup in `db.rooms` (dict keyed by room id). -/
def findRoom (rooms : List Room) (roomId : Nat) : Option Room :=
  rooms.find? (fun r => r.id == roomId)

/-- The per-booking test inside `_has_overlapping_booking`:
`booking.room_id == room_id and booking.status == CONFIRMED and
not (check_out <= booking.check_in_date or check_in >= booking.check_out_date)`. -/
def bookingConflicts (b : Booking) (roomId : Nat) (check_in check_out : Int) : Bool :=
  b.room_id == roomId && b.status == BookingStatus.confirmed &&
    !(decide (check_out ≤ b.check_in_date) || decide (check_in ≥ b.check_out_date))

/-- Model of `BookingService._has_overlapping_booking`. -/
def hasOverlappingBooking (bookings : List Booking) (roomId : Nat)
    (check_in check_out : Int) : Bool :=
  bookings.any (fun b => bookingConflicts b roomId check_in check_out)

/-- Model of `BookingService.create_booking`.  `today` is `date.today()`, `now` is
`datetime.utcnow()`, `newId` the uuid generated for the new booking.  Returns
the outcome (raised error or created booking) and the post state. -/
def create_booking (s : BookingState) (req : BookingRequest)
    (today now : Int) (newId : Nat) :
    Except BookingError Booking × BookingState :=
  let rl := isRateLimited s.requestsByEmail req.guest_email now
  let s2 : BookingState := { s with requestsByEmail := rl.2 }
  if rl.1 then
    (Except.error BookingError.rateLimited, s2)
  else
    match findRoom s.rooms req.room_id with
    | none => (Except.error BookingError.notFound, s2)
    | some room =>
      if req.check_out_date < req.check_in_date then
        (Except.error BookingError.invalidRange, s2)
      else if req.check_in_date < today then
        (Except.error BookingError.pastDate, s2)
      else if hasOverlappingBooking s.bookings req.room_id
          req.check_in_date req.check_out_date then
        (Except.error BookingError.conflict, s2)
      else
        let nights : Int := req.check_out_date - req.check_in_date
        let nightsCharged : Int := max 1 nights
        let totalPrice : Int := room.price * nightsCharged
        let b : Booking :=
          { id := newId
            room_id := req.room_id
            hotel_id := room.hotel_id
            guest_email := req.guest_email
            check_in_date := req.check_in_date
            check_out_date := req.check_out_date
            total_price := totalPrice
            status := BookingStatus.confirmed }
        (Except.ok b, { s2 with bookings := s2.bookings ++ [b] })

/-- Status rewrite done by `cancel_booking` on the booking whose id matches:
the Python code mutates the looked-up `Booking` object in place; here the
booking list is rewritten with this function. -/
def cancelMark (bookingId : Nat) (b : Booking) : Booking :=
  if b.id == bookingId then { b with status := BookingStatus.cancelled } else b

/-- Model of `BookingService.cancel_booking`: returns the boolean result and
the post state. -/
def cancel_booking (s : BookingState) (bookingId : Nat) : Bool × BookingState :=
  if s.bookings.any (fun b => b.id == bookingId) then
    (true, { s with bookings := s.bookings.map (cancelMark bookingId) })
  else
    (false, s)

/-- One externally triggered operation on the booking service. -/
inductive BookingOp where
  | create (req : BookingRequest) (today now : Int) (newId : Nat)
  | cancel (bookingId : Nat)

/-- State transition of a single operation (the returned value is dropped). -/
def applyBookingOp (s : BookingState) : BookingOp → BookingState
  | BookingOp.create req today now newId => (create_booking s req today now newId).2
  | BookingOp.cancel bookingId => (cancel_booking s bookingId).2

/-- Run a sequence of operations. -/
def runBookingOps (s : BookingState) (ops : List BookingOp) : BookingState :=
  ops.foldl applyBookingOp s

/-- Two bookings, if on the same room and both Confirmed, have non-overlapping
half-open intervals: with the first being [a,b) and the second [c,d), it is
not the case that `c < b ∧ a < d`. -/
def NoConfirmedOverlap (x y : Booking) : Prop :=
  x.room_id = y.room_id → x.status = BookingStatus.confirmed →
    y.status = BookingStatus.confirmed →
    ¬(y.check_in_date < x.check_out_date ∧ x.check_in_date < y.check_out_date)

/-- The no-double-booking invariant over the booking store. -/
def ConfirmedPairwiseDisjoint (bs : List Booking) : Prop :=
  List.Pairwise NoConfirmedOverlap bs

/-!
Search service embedding (`SearchService` in `backend/services.py`).

Python strings are modelled as lists of characters.  The two index structures
`_city_index` and `_name_index` are fully determined by the list of hotels
`_build_indexes` was last run over (at construction and on every
`rebuild_indexes`); the embedding stores that snapshot as `idxHotels` and
looks buckets up on demand, while `dbHotels` models `db.hotels`.
-/

/-- Character strings, the model of Python `str`. -/
abbrev Str := List Char

/-- Model of Python `str.lower()`. -/
def lowerStr (s : Str) : Str := s.map Char.toLower

/-- Helper for substring containment: prefix test on character lists. -/
def isPrefixChars : Str → Str → Bool
  | [], _ => true
  | _ :: _, [] => false
  | a :: as, b :: bs => a == b && isPrefixChars as bs

/-- Model of the Python expression `needle in hay` on strings (substring
containment). -/
def isSubstring (needle : Str) : Str → Bool
  | [] => needle.isEmpty
  | c :: t => isPrefixChars needle (c :: t) || isSubstring needle t

/-- Accumulator worker for `splitWords`. -/
def splitWordsAux : Str → Str → List Str
  | [], acc => if acc.isEmpty then [] else [acc.reverse]
  | c :: cs, acc =>
    if c.isWhitespace then
      if acc.isEmpty then splitWordsAux cs []
      else acc.reverse :: splitWordsAux cs []
    else splitWordsAux cs (c :: acc)

/-- Model of Python `str.split()` with no arguments: split on runs of
whitespace, discarding empty tokens. -/
def splitWords (s : Str) : List Str := splitWordsAux s []

/-- Model of `models.Hotel` (fields used by the search service). -/
structure Hotel where
  id : Nat
  name : Str
  city : Str
deriving DecidableEq

/-- Cache keys are plain strings: `SearchService._cache_key` builds the flat
format string `city=...|name=...|limit=...`. -/
abbrev CacheKey := Str

/-- The pipe delimiter used by the cache-key format string. -/
def barChar : Char := '|'

/-- Decimal digit character, as produced when Python interpolates an `int`
into an f-string. -/
def digitChar (d : Nat) : Char := Char.ofNat (48 + d)

/-- Fuelled worker for `natDigits`, shaped like core `Nat.toDigitsCore`. -/
def natDigitsCore : Nat → Nat → Str → Str
  | 0, _, acc => acc
  | fuel + 1, n, acc =>
    if n < 10 then digitChar n :: acc
    else natDigitsCore fuel (n / 10) (digitChar (n % 10) :: acc)

/-- Decimal rendering of a natural number, the model of `str(limit)` inside
the f-string interpolation. -/
def natDigits (n : Nat) : Str := natDigitsCore (n + 1) n []

/-- Model of `SearchService._cache_key`: the flat f-string
`city={city or ''}|name={hotel_name or ''}|limit={limit}`.  A missing filter
collapses to the empty string exactly as `or ''` does, and the components are
interpolated UNESCAPED, so distinct queries can produce the same key (for
example city `x|name=y` with no name against city `x` with name `y|name=`). -/
def cache_key (city hotel_name : Option Str) (limit : Nat) : CacheKey :=
  "city=".toList ++
    (city.getD [] ++ barChar ::
      ("name=".toList ++
        (hotel_name.getD [] ++ barChar ::
          ("limit=".toList ++ natDigits limit))))

/-- Python truthiness of an `Optional[str]` argument: `None` and the empty
string are both falsy (the code tests `if city:` and `if not city and not
hotel_name:`). -/
def given : Option Str → Bool
  | none => false
  | some s => !s.isEmpty

/-- Mutable state of `SearchService`: `db.hotels` in insertion order, the
snapshot of `db.hotels` that the two indexes were built from, and the result
cache `_cache`. -/
structure SearchState where
  dbHotels : List Hotel
  idxHotels : List Hotel
  cache : List (CacheKey × List Hotel × Int)

/-- Constant `SearchService._cache_ttl`, 60 seconds. -/
def cacheTTL : Int := 60

/-- Bucket of `_city_index` for a (lower-cased) key: the hotels appended by
`_build_indexes`, in build order. -/
def cityBucket (idx : List Hotel) (key : Str) : List Hotel :=
  idx.filter (fun h => lowerStr h.city == key)

/-- Membership test `h_id in result_ids` on the collected id set. -/
def idMember (ids : List Nat) (i : Nat) : Bool :=
  ids.any (fun j => j == i)

/-- Whether a single query word reaches hotel `h` through the name index:
some indexed word of the hotel's lower-cased name contains the query word as
a substring (`if word in indexed_word`). -/
def nameWordMatch (w : Str) (h : Hotel) : Bool :=
  (splitWords (lowerStr h.name)).any (fun iw => isSubstring w iw)

/-- The whole name filter: union over the lower-cased query words. -/
def nameMatch (query : Str) (h : Hotel) : Bool :=
  (splitWords (lowerStr query)).any (fun w => nameWordMatch w h)

/-- The index-scanning part of `SearchService.search_hotels` (what runs on a
cache miss).  The Python code collects matching hotel ids into a `set` and
converts back through `db.hotels`; set-iteration order is unspecified in the
source, so the embedding fixes database insertion order, and every claim about
the result is stated order-insensitively (membership and counts). -/
def searchCompute (db idx : List Hotel) (city hotel_name : Option Str)
    (limit : Nat) : List Hotel :=
  if !(given city) && !(given hotel_name) then
    db.take limit
  else
    let cityIds : List Nat :=
      if given city then (cityBucket idx (lowerStr (city.getD []))).map (fun h => h.id)
      else []
    let nameIds : List Nat :=
      if given hotel_name then
        (idx.filter (fun h => nameMatch (hotel_name.getD []) h)).map (fun h => h.id)
      else []
    let resultIds : List Nat :=
      if given hotel_name then
        if given city then cityIds.filter (fun i => idMember nameIds i)
        else nameIds
      else cityIds
    (db.filter (fun h => idMember resultIds h.id)).take limit

/-- Model of `SearchService._get_cached` lookup (without the expiry pop; the
pop is folded into `search_hotels` below, where the popped entry is
immediately overwritten by `_set_cache`). -/
def lookupEntry (cache : List (CacheKey × List Hotel × Int)) (k : CacheKey) :
    Option (List Hotel × Int) :=
  (cache.find? (fun e => e.1 == k)).map (fun e => e.2)

/-- Removal of a cache entry (used by `_set_cache` overwrite semantics). -/
def eraseEntry (cache : List (CacheKey × List Hotel × Int)) (k : CacheKey) :
    List (CacheKey × List Hotel × Int) :=
  cache.filter (fun e => !(e.1 == k))

/-- Model of `SearchService._set_cache`: store `(results, now + ttl)` under
the key, overwriting any previous entry. -/
def setEntry (cache : List (CacheKey × List Hotel × Int)) (k : CacheKey)
    (results : List Hotel) (now : Int) : List (CacheKey × List Hotel × Int) :=
  eraseEntry cache k ++ [(k, results, now + cacheTTL)]

/-- Model of `SearchService.search_hotels`: consult the cache (an entry is a
hit iff not expired, `datetime.utcnow() > expires_at` being the expiry test);
on a miss compute from the indexes and store. -/
def search_hotels (s : SearchState) (city hotel_name : Option Str) (limit : Nat)
    (now : Int) : List Hotel × SearchState :=
  let k := cache_key city hotel_name limit
  match lookupEntry s.cache k with
  | some (results, expiresAt) =>
    if expiresAt < now then
      let res := searchCompute s.dbHotels s.idxHotels city hotel_name limit
      (res, { s with cache := setEntry s.cache k res now })
    else
      (results, s)
  | none =>
    let res := searchCompute s.dbHotels s.idxHotels city hotel_name limit
    (res, { s with cache := setEntry s.cache k res now })

/-- Model of `SearchService.rebuild_indexes`: rebuild both indexes from the
current `db.hotels` and clear the whole cache. -/
def rebuild_indexes (s : SearchState) : SearchState :=
  { s with idxHotels := s.dbHotels, cache := [] }

/-- One externally triggered operation on the search service. -/
inductive SearchOp where
  | search (city hotel_name : Option Str) (limit : Nat) (now : Int)
  | rebuild

/-- State transition of a single search-service operation. -/
def applySearchOp (s : SearchState) : SearchOp → SearchState
  | SearchOp.search city hotel_name limit now =>
      (search_hotels s city hotel_name limit now).2
  | SearchOp.rebuild => rebuild_indexes s

/-- Run a sequence of search-service operations. -/
def runSearchOps (s : SearchState) (ops : List SearchOp) : SearchState :=
  ops.foldl applySearchOp s

/-- Search result as the specification words describe it, for comparison with
`searchCompute`: keep the hotels passing the city filter (exact
case-insensitive match) and the name filter (some query word contained in
some indexed name word, union across query words), intersecting when both
filters are given, then truncate to `limit`. -/
def specSearch (hotels : List Hotel) (city hotel_name : Option Str)
    (limit : Nat) : List Hotel :=
  (hotels.filter (fun h =>
    (!(given city) || (lowerStr h.city == lowerStr (city.getD []))) &&
    (!(given hotel_name) || nameMatch (hotel_name.getD []) h))).take limit

/-- Cache-coherence invariant: every stored result equals what recomputation
from the current database and index snapshot would produce for the query
parameters that stored it, whose flat key string is the entry's key.  (The
key string itself does not determine the parameters: unescaped components can
make distinct queries collide on the same key.) -/
def CacheConsistent (s : SearchState) : Prop :=
  ∀ k res exp, (k, res, exp) ∈ s.cache →
    ∃ city hotel_name limit, k = cache_key city hotel_name limit ∧
      res = searchCompute s.dbHotels s.idxHotels city hotel_name limit

/-!
Concrete data used by witnesses and counterexamples.
-/

/-- Example room: id 1 in hotel 1, priced 8000 per night. -/
def exRoom : Room := { id := 1, hotel_id := 1, price := 8000 }

/-- Booking state with one room and no bookings; no prior booking attempts. -/
def exEmptyState : BookingState :=
  { rooms := [exRoom], bookings := [], requestsByEmail := fun _ => [] }

/-- Request for room 1, days [1,3), guest 7. -/
def exReq13 : BookingRequest :=
  { room_id := 1, guest_email := 7, check_in_date := 1, check_out_date := 3 }

/-- Request for room 1, days [2,4), guest 8. -/
def exReq24 : BookingRequest :=
  { room_id := 1, guest_email := 8, check_in_date := 2, check_out_date := 4 }

/-- Request for room 1, days [3,5), guest 8. -/
def exReq35 : BookingRequest :=
  { room_id := 1, guest_email := 8, check_in_date := 3, check_out_date := 5 }

/-- Same-day request for room 1 at day 1, guest 9. -/
def exReq11 : BookingRequest :=
  { room_id := 1, guest_email := 9, check_in_date := 1, check_out_date := 1 }

/-- Same-day request for room 1 at day 2, guest 8. -/
def exReq22 : BookingRequest :=
  { room_id := 1, guest_email := 8, check_in_date := 2, check_out_date := 2 }

/-- Same-day request for room 1 at day 2, guest 9. -/
def exReq22b : BookingRequest :=
  { room_id := 1, guest_email := 9, check_in_date := 2, check_out_date := 2 }

/-- State after booking room 1 for [1,3) (at `today = 0`, `now = 0`, id 10). -/
def exStateAfter13 : BookingState := (create_booking exEmptyState exReq13 0 0 10).2

/-- A cancelled booking with id 1 on room 1. -/
def exCancelledBooking : Booking :=
  { id := 1, room_id := 1, hotel_id := 1, guest_email := 7, check_in_date := 1,
    check_out_date := 3, total_price := 16000, status := BookingStatus.cancelled }

/-- Booking state containing only the cancelled booking. -/
def exStateCancelled : BookingState :=
  { rooms := [exRoom], bookings := [exCancelledBooking], requestsByEmail := fun _ => [] }

/-- A confirmed same-day booking [2,2) on room 1. -/
def exSameDayBooking : Booking :=
  { id := 20, room_id := 1, hotel_id := 1, guest_email := 7, check_in_date := 2,
    check_out_date := 2, total_price := 8000, status := BookingStatus.confirmed }

/-- Booking state containing only the confirmed same-day booking. -/
def exStateSameDay : BookingState :=
  { rooms := [exRoom], bookings := [exSameDayBooking], requestsByEmail := fun _ => [] }

/-- Booking state where guest 7 has one stale and five in-window attempts
(relative to `now = 10` and the 60-second window). -/
def exRateState : BookingState :=
  { rooms := [exRoom], bookings := [],
    requestsByEmail := fun e => if e = 7 then [-100, 0, 0, 0, 0, 0] else [] }

/-- Hotel from the search scenario: Mumbai Grand Hotel in Mumbai. -/
def hMumbaiGrand : Hotel :=
  { id := 1, name := "Mumbai Grand Hotel".toList, city := "Mumbai".toList }

/-- Hotel from the search scenario: Royal Mumbai Resort in Mumbai. -/
def hRoyal : Hotel :=
  { id := 2, name := "Royal Mumbai Resort".toList, city := "Mumbai".toList }

/-- Hotel from the search scenario: Delhi Palace Hotel in Delhi. -/
def hDelhi : Hotel :=
  { id := 3, name := "Delhi Palace Hotel".toList, city := "Delhi".toList }

/-- The three scenario hotels in insertion order. -/
def exHotels : List Hotel := [hMumbaiGrand, hRoyal, hDelhi]

/-- Search state over the scenario hotels, indexes in sync, empty cache. -/
def exSearchState : SearchState :=
  { dbHotels := exHotels, idxHotels := exHotels, cache := [] }

/-- Search-service state right after construction over a database (or right
after a `rebuild_indexes`): indexes in sync with the database, empty cache. -/
def initialSearchState (db0 : List Hotel) : SearchState :=
  { dbHotels := db0, idxHotels := db0, cache := [] }

/-- Hotel whose city contains the cache-key delimiter, used to exhibit a key
collision between two distinct queries. -/
def hPipe : Hotel :=
  { id := 9, name := "h".toList, city := "x|name=y".toList }

/-- State after searching city `x|name=y` (no name filter, limit 50) at time 0
over the one-hotel database: the result `[hPipe]` sits in the cache under the
flat key `city=x|name=y|name=|limit=50`. -/
def exCollideState : SearchState :=
  (search_hotels (initialSearchState [hPipe])
    (some "x|name=y".toList) none 50 0).2

/-- The booking produced by `create_booking exEmptyState exReq13 0 0 10`. -/
def exBooked13 : Booking :=
  { id := 10, room_id := 1, hotel_id := 1, guest_email := 7, check_in_date := 1,
    check_out_date := 3, total_price := 16000, status := BookingStatus.confirmed }

/-- The booking produced by `create_booking exEmptyState exReq11 0 0 10`. -/
def exBooked11 : Booking :=
  { id := 10, room_id := 1, hotel_id := 1, guest_email := 9, check_in_date := 1,
    check_out_date := 1, total_price := 8000, status := BookingStatus.confirmed }

theorem noConfirmedOverlap_symm (x y : Booking) (h : NoConfirmedOverlap x y) :
    NoConfirmedOverlap y x := by
  intro hroom hxc hyc hov
  exact h hroom.symm hyc hxc ⟨hov.2, hov.1⟩

theorem hasOverlappingBooking_eq_false_iff (bs : List Booking) (roomId : Nat)
    (ci co : Int) :
    hasOverlappingBooking bs roomId ci co = false ↔
      ∀ b ∈ bs, bookingConflicts b roomId ci co = false := by
  simp [hasOverlappingBooking, List.any_eq_false]

theorem bookingConflicts_eq_false (b : Booking) (roomId : Nat) (ci co : Int)
    (h : bookingConflicts b roomId ci co = false)
    (hroom : b.room_id = roomId) (hconf : b.status = BookingStatus.confirmed) :
    co ≤ b.check_in_date ∨ ci ≥ b.check_out_date := by
  by_cases h1 : co ≤ b.check_in_date
  · exact Or.inl h1
  · by_cases h2 : ci ≥ b.check_out_date
    · exact Or.inr h2
    · exfalso
      have htrue : bookingConflicts b roomId ci co = true := by
        simp [bookingConflicts, hroom, hconf, h1, h2]
      rw [h] at htrue
      exact Bool.false_ne_true htrue

theorem create_booking_preserves_disjoint (s : BookingState)
    (req : BookingRequest) (today now : Int) (newId : Nat)
    (hinv : ConfirmedPairwiseDisjoint s.bookings) :
    ConfirmedPairwiseDisjoint ((create_booking s req today now newId).2).bookings := by
  unfold create_booking
  cases hrl : (isRateLimited s.requestsByEmail req.guest_email now).1 with
  | true => simpa [hrl] using hinv
  | false =>
    cases hroom : findRoom s.rooms req.room_id with
    | none => simpa [hrl, hroom] using hinv
    | some room =>
      by_cases hrange : req.check_out_date < req.check_in_date
      · simpa [hrl, hroom, hrange] using hinv
      by_cases hpast : req.check_in_date < today
      · simpa [hrl, hroom, hrange, hpast] using hinv
      cases hov : hasOverlappingBooking s.bookings req.room_id
          req.check_in_date req.check_out_date with
      | true => simpa [hrl, hroom, hrange, hpast, hov] using hinv
      | false =>
        simp [hrl, hroom, hrange, hpast, hov, ConfirmedPairwiseDisjoint,
          List.pairwise_append]
        refine ⟨hinv, ?_⟩
        intro x hx
        intro hroomEq hxconf _
        intro hcontra
        have hfalse := (hasOverlappingBooking_eq_false_iff s.bookings req.room_id
          req.check_in_date req.check_out_date).mp hov x hx
        have := bookingConflicts_eq_false x req.room_id
          req.check_in_date req.check_out_date hfalse hroomEq hxconf
        rcases this with h | h
        · exact absurd hcontra.2 (not_lt.mpr h)
        · exact absurd hcontra.1 (not_lt.mpr h)

theorem cancelMark_room_id (bookingId : Nat) (b : Booking) :
    (cancelMark bookingId b).room_id = b.room_id := by
  by_cases h : b.id == bookingId <;> simp [cancelMark, h]

theorem cancelMark_check_in (bookingId : Nat) (b : Booking) :
    (cancelMark bookingId b).check_in_date = b.check_in_date := by
  by_cases h : b.id == bookingId <;> simp [cancelMark, h]

theorem cancelMark_check_out (bookingId : Nat) (b : Booking) :
    (cancelMark bookingId b).check_out_date = b.check_out_date := by
  by_cases h : b.id == bookingId <;> simp [cancelMark, h]

theorem cancelMark_confirmed (bookingId : Nat) (b : Booking)
    (h : (cancelMark bookingId b).status = BookingStatus.confirmed) :
    b.status = BookingStatus.confirmed := by
  by_cases hid : b.id == bookingId
  · simp [cancelMark, hid] at h
  · simpa [cancelMark, hid] using h

theorem cancel_booking_preserves_disjoint (s : BookingState) (bookingId : Nat)
    (hinv : ConfirmedPairwiseDisjoint s.bookings) :
    ConfirmedPairwiseDisjoint ((cancel_booking s bookingId).2).bookings := by
  unfold cancel_booking
  cases hmem : s.bookings.any (fun b => b.id == bookingId) with
  | false => simpa [hmem] using hinv
  | true =>
    simp only [hmem, if_true]
    refine List.Pairwise.map _ ?_ hinv
    intro a b hab
    unfold NoConfirmedOverlap at hab ⊢
    simp only [cancelMark_room_id, cancelMark_check_in, cancelMark_check_out]
    intro hroom ha hb
    exact hab hroom (cancelMark_confirmed _ _ ha) (cancelMark_confirmed _ _ hb)

theorem runBookingOps_preserves_disjoint (s : BookingState) (ops : List BookingOp)
    (hinv : ConfirmedPairwiseDisjoint s.bookings) :
    ConfirmedPairwiseDisjoint (runBookingOps s ops).bookings := by
  induction ops generalizing s with
  | nil => exact hinv
  | cons op rest ih =>
    cases op with
    | create req today now newId =>
      exact ih _ (create_booking_preserves_disjoint s req today now newId hinv)
    | cancel bookingId =>
      exact ih _ (cancel_booking_preserves_disjoint s bookingId hinv)

/-- C1: starting from a state with no bookings, any sequence of
`create_booking` and `cancel_booking` operations leaves the booking store in a
state where the Confirmed bookings are pairwise non-overlapping per room under
half-open interval semantics: for any two distinct Confirmed bookings [a,b)
and [c,d) on the same room it is not the case that `c < b ∧ a < d`. -/
theorem claim_C1_no_double_booking (rooms : List Room) (rate0 : Nat → List Int)
    (ops : List BookingOp) :
    ConfirmedPairwiseDisjoint
      (runBookingOps
        { rooms := rooms, bookings := [], requestsByEmail := rate0 } ops).bookings :=
  runBookingOps_preserves_disjoint _ ops List.Pairwise.nil

theorem hasOverlappingBooking_eq_true_iff (bs : List Booking) (roomId : Nat)
    (ci co : Int) :
    hasOverlappingBooking bs roomId ci co = true ↔
      ∃ b ∈ bs, b.room_id = roomId ∧ b.status = BookingStatus.confirmed ∧
        b.check_in_date < co ∧ ci < b.check_out_date := by
  simp [hasOverlappingBooking, bookingConflicts, List.any_eq_true, and_assoc]
theorem isRateLimited_fst_iff (requests : Nat → List Int) (email : Nat) (now : Int) :
    (isRateLimited requests email now).1 = true ↔
      rateLimitMax ≤ (pruneTimestamps (requests email) (now - rateLimitWindow)).length := by
  by_cases h : rateLimitMax ≤ (pruneTimestamps (requests email) (now - rateLimitWindow)).length <;>
    simp [isRateLimited, h]

theorem isRateLimited_other (requests : Nat → List Int) (email : Nat) (now : Int)
    (g : Nat) (hg : g ≠ email) :
    (isRateLimited requests email now).2 g = requests g := by
  by_cases h : rateLimitMax ≤ (pruneTimestamps (requests email) (now - rateLimitWindow)).length <;>
    simp [isRateLimited, h, hg]

theorem isRateLimited_self_true (requests : Nat → List Int) (email : Nat) (now : Int)
    (h : rateLimitMax ≤ (pruneTimestamps (requests email) (now - rateLimitWindow)).length) :
    (isRateLimited requests email now).2 email =
      pruneTimestamps (requests email) (now - rateLimitWindow) := by
  simp [isRateLimited, h]

theorem isRateLimited_self_false (requests : Nat → List Int) (email : Nat) (now : Int)
    (h : ¬ rateLimitMax ≤ (pruneTimestamps (requests email) (now - rateLimitWindow)).length) :
    (isRateLimited requests email now).2 email =
      pruneTimestamps (requests email) (now - rateLimitWindow) ++ [now] := by
  simp [isRateLimited, h]

theorem create_booking_rateLimited_eq (s : BookingState) (req : BookingRequest)
    (today now : Int) (newId : Nat)
    (hrl : (isRateLimited s.requestsByEmail req.guest_email now).1 = true) :
    create_booking s req today now newId =
      (Except.error BookingError.rateLimited,
        { s with requestsByEmail := (isRateLimited s.requestsByEmail req.guest_email now).2 }) := by
  simp [create_booking, hrl]

theorem create_booking_notFound_eq (s : BookingState) (req : BookingRequest)
    (today now : Int) (newId : Nat)
    (hrl : (isRateLimited s.requestsByEmail req.guest_email now).1 = false)
    (hfind : findRoom s.rooms req.room_id = none) :
    create_booking s req today now newId =
      (Except.error BookingError.notFound,
        { s with requestsByEmail := (isRateLimited s.requestsByEmail req.guest_email now).2 }) := by
  simp [create_booking, hrl, hfind]

theorem create_booking_invalidRange_eq (s : BookingState) (req : BookingRequest)
    (today now : Int) (newId : Nat)
    (hrl : (isRateLimited s.requestsByEmail req.guest_email now).1 = false)
    (room : Room) (hfind : findRoom s.rooms req.room_id = some room)
    (h1 : req.check_out_date < req.check_in_date) :
    create_booking s req today now newId =
      (Except.error BookingError.invalidRange,
        { s with requestsByEmail := (isRateLimited s.requestsByEmail req.guest_email now).2 }) := by
  simp [create_booking, hrl, hfind, h1]

theorem create_booking_pastDate_eq (s : BookingState) (req : BookingRequest)
    (today now : Int) (newId : Nat)
    (hrl : (isRateLimited s.requestsByEmail req.guest_email now).1 = false)
    (room : Room) (hfind : findRoom s.rooms req.room_id = some room)
    (h1 : ¬ req.check_out_date < req.check_in_date)
    (h2 : req.check_in_date < today) :
    create_booking s req today now newId =
      (Except.error BookingError.pastDate,
        { s with requestsByEmail := (isRateLimited s.requestsByEmail req.guest_email now).2 }) := by
  simp [create_booking, hrl, hfind, h1, h2]

theorem create_booking_conflict_eq (s : BookingState) (req : BookingRequest)
    (today now : Int) (newId : Nat)
    (hrl : (isRateLimited s.requestsByEmail req.guest_email now).1 = false)
    (room : Room) (hfind : findRoom s.rooms req.room_id = some room)
    (h1 : ¬ req.check_out_date < req.check_in_date)
    (h2 : ¬ req.check_in_date < today)
    (hov : hasOverlappingBooking s.bookings req.room_id
      req.check_in_date req.check_out_date = true) :
    create_booking s req today now newId =
      (Except.error BookingError.conflict,
        { s with requestsByEmail := (isRateLimited s.requestsByEmail req.guest_email now).2 }) := by
  simp [create_booking, hrl, hfind, h1, h2, hov]

theorem create_booking_ok_eq (s : BookingState) (req : BookingRequest)
    (today now : Int) (newId : Nat)
    (hrl : (isRateLimited s.requestsByEmail req.guest_email now).1 = false)
    (room : Room) (hfind : findRoom s.rooms req.room_id = some room)
    (h1 : ¬ req.check_out_date < req.check_in_date)
    (h2 : ¬ req.check_in_date < today)
    (hov : hasOverlappingBooking s.bookings req.room_id
      req.check_in_date req.check_out_date = false) :
    create_booking s req today now newId =
      (Except.ok
        { id := newId, room_id := req.room_id, hotel_id := room.hotel_id,
          guest_email := req.guest_email, check_in_date := req.check_in_date,
          check_out_date := req.check_out_date,
          total_price := room.price * max 1 (req.check_out_date - req.check_in_date),
          status := BookingStatus.confirmed },
        { s with
          requestsByEmail := (isRateLimited s.requestsByEmail req.guest_email now).2,
          bookings := s.bookings ++
            [{ id := newId, room_id := req.room_id, hotel_id := room.hotel_id,
               guest_email := req.guest_email, check_in_date := req.check_in_date,
               check_out_date := req.check_out_date,
               total_price := room.price * max 1 (req.check_out_date - req.check_in_date),
               status := BookingStatus.confirmed }] }) := by
  simp [create_booking, hrl, hfind, h1, h2, hov]

theorem create_booking_anatomy (s : BookingState) (req : BookingRequest)
    (today now : Int) (newId : Nat) :
    (create_booking s req today now newId).2.rooms = s.rooms ∧
    (create_booking s req today now newId).2.requestsByEmail =
      (isRateLimited s.requestsByEmail req.guest_email now).2 ∧
    ((create_booking s req today now newId).1 = Except.error BookingError.rateLimited ↔
      (isRateLimited s.requestsByEmail req.guest_email now).1 = true) ∧
    (((∃ err, (create_booking s req today now newId).1 = Except.error err) ∧
        (create_booking s req today now newId).2.bookings = s.bookings) ∨
      (∃ b, (create_booking s req today now newId).1 = Except.ok b ∧
        (create_booking s req today now newId).2.bookings = s.bookings ++ [b])) := by
  cases hrl : (isRateLimited s.requestsByEmail req.guest_email now).1 with
  | true =>
    rw [create_booking_rateLimited_eq s req today now newId hrl]
    exact ⟨rfl, rfl, ⟨fun _ => rfl, fun _ => rfl⟩, Or.inl ⟨⟨_, rfl⟩, rfl⟩⟩
  | false =>
    have hne : ∀ e : BookingError, e ≠ BookingError.rateLimited →
        ((Except.error e : Except BookingError Booking) =
            Except.error BookingError.rateLimited ↔
          (false : Bool) = true) := by
      intro e he
      constructor
      · intro hco
        exact absurd (Except.error.inj hco) he
      · intro hco
        exact absurd hco Bool.false_ne_true
    cases hfind : findRoom s.rooms req.room_id with
    | none =>
      rw [create_booking_notFound_eq s req today now newId hrl hfind]
      exact ⟨rfl, rfl, hne _ (by decide), Or.inl ⟨⟨_, rfl⟩, rfl⟩⟩
    | some room =>
      by_cases h1 : req.check_out_date < req.check_in_date
      · rw [create_booking_invalidRange_eq s req today now newId hrl room hfind h1]
        exact ⟨rfl, rfl, hne _ (by decide), Or.inl ⟨⟨_, rfl⟩, rfl⟩⟩
      · by_cases h2 : req.check_in_date < today
        · rw [create_booking_pastDate_eq s req today now newId hrl room hfind h1 h2]
          exact ⟨rfl, rfl, hne _ (by decide), Or.inl ⟨⟨_, rfl⟩, rfl⟩⟩
        · cases hov : hasOverlappingBooking s.bookings req.room_id
              req.check_in_date req.check_out_date with
          | true =>
            rw [create_booking_conflict_eq s req today now newId hrl room hfind h1 h2 hov]
            exact ⟨rfl, rfl, hne _ (by decide), Or.inl ⟨⟨_, rfl⟩, rfl⟩⟩
          | false =>
            rw [create_booking_ok_eq s req today now newId hrl room hfind h1 h2 hov]
            refine ⟨rfl, rfl, ⟨fun hco => ?_, fun hco => ?_⟩, Or.inr ⟨_, rfl, rfl⟩⟩
            · simp at hco
            · exact absurd hco Bool.false_ne_true

theorem create_booking_not_rateLimited (s : BookingState) (req : BookingRequest)
    (today now : Int) (newId : Nat)
    (h : (isRateLimited s.requestsByEmail req.guest_email now).1 = false) :
    (create_booking s req today now newId).1 ≠ Except.error BookingError.rateLimited := by
  intro hco
  have := ((create_booking_anatomy s req today now newId).2.2.1).mp hco
  rw [h] at this
  exact absurd this Bool.false_ne_true

theorem create_booking_conflict_iff (s : BookingState) (req : BookingRequest)
    (today now : Int) (newId : Nat)
    (hrl : (isRateLimited s.requestsByEmail req.guest_email now).1 = false)
    (hroom : (findRoom s.rooms req.room_id).isSome = true)
    (hrange : req.check_in_date ≤ req.check_out_date)
    (hpast : today ≤ req.check_in_date) :
    ((create_booking s req today now newId).1 = Except.error BookingError.conflict ↔
      hasOverlappingBooking s.bookings req.room_id
        req.check_in_date req.check_out_date = true) := by
  obtain ⟨room, hfind⟩ := Option.isSome_iff_exists.mp hroom
  have h1 : ¬ req.check_out_date < req.check_in_date := not_lt.mpr hrange
  have h2 : ¬ req.check_in_date < today := not_lt.mpr hpast
  cases hov : hasOverlappingBooking s.bookings req.room_id
      req.check_in_date req.check_out_date with
  | true =>
    rw [create_booking_conflict_eq s req today now newId hrl room hfind h1 h2 hov]
    simp
  | false =>
    rw [create_booking_ok_eq s req today now newId hrl room hfind h1 h2 hov]
    simp

/-- C2: assuming the rate-limit, room-existence and date validations pass,
`create_booking` fails with Conflict exactly when some existing Confirmed
booking on the same room overlaps the requested range under half-open
semantics: the existing [c,d) and requested [a,b) satisfy `c < b ∧ a < d`. -/
theorem claim_C2_conflict_iff_overlap (s : BookingState) (req : BookingRequest)
    (today now : Int) (newId : Nat)
    (hrl : (isRateLimited s.requestsByEmail req.guest_email now).1 = false)
    (hroom : (findRoom s.rooms req.room_id).isSome = true)
    (hrange : req.check_in_date ≤ req.check_out_date)
    (hpast : today ≤ req.check_in_date) :
    ((create_booking s req today now newId).1 = Except.error BookingError.conflict ↔
      ∃ b ∈ s.bookings, b.room_id = req.room_id ∧
        b.status = BookingStatus.confirmed ∧
        b.check_in_date < req.check_out_date ∧
        req.check_in_date < b.check_out_date) := by
  rw [create_booking_conflict_iff s req today now newId hrl hroom hrange hpast]
  exact hasOverlappingBooking_eq_true_iff s.bookings req.room_id
    req.check_in_date req.check_out_date

/-- Witness for C2: after booking room 1 for [1,3), the request [2,4)
satisfies all hypotheses and the conflict iff holds there; that request is
indeed rejected with Conflict while the touching request [3,5) succeeds. -/
theorem claim_C2_conflict_iff_overlap_witness :
    ((isRateLimited exStateAfter13.requestsByEmail exReq24.guest_email 0).1 = false
      ∧ (findRoom exStateAfter13.rooms exReq24.room_id).isSome = true
      ∧ exReq24.check_in_date ≤ exReq24.check_out_date
      ∧ (0 : Int) ≤ exReq24.check_in_date)
    ∧ ((create_booking exStateAfter13 exReq24 0 0 11).1 =
          Except.error BookingError.conflict ↔
        ∃ b ∈ exStateAfter13.bookings, b.room_id = exReq24.room_id ∧
          b.status = BookingStatus.confirmed ∧
          b.check_in_date < exReq24.check_out_date ∧
          exReq24.check_in_date < b.check_out_date)
    ∧ (create_booking exStateAfter13 exReq24 0 0 11).1 =
        Except.error BookingError.conflict
    ∧ (create_booking exStateAfter13 exReq35 0 0 12).1 =
        Except.ok
          { id := 12, room_id := 1, hotel_id := 1, guest_email := 8,
            check_in_date := 3, check_out_date := 5, total_price := 16000,
            status := BookingStatus.confirmed } :=
  ⟨⟨by decide, by decide, by decide, by decide⟩,
    claim_C2_conflict_iff_overlap exStateAfter13 exReq24 0 0 11
      (by decide) (by decide) (by decide) (by decide),
    by rfl, by rfl⟩

/-- C3: every successful `create_booking` prices the booking at the room's
nightly price times `max 1 (check_out - check_in)` days; in particular a
same-day stay is billed as exactly one night. -/
theorem claim_C3_total_price (s : BookingState) (req : BookingRequest)
    (today now : Int) (newId : Nat) (b : Booking)
    (h : (create_booking s req today now newId).1 = Except.ok b) :
    ∃ room, findRoom s.rooms req.room_id = some room ∧
      b.total_price = room.price * max 1 (req.check_out_date - req.check_in_date) := by
  cases hrl : (isRateLimited s.requestsByEmail req.guest_email now).1 with
  | true =>
    rw [create_booking_rateLimited_eq s req today now newId hrl] at h
    simp at h
  | false =>
    cases hfind : findRoom s.rooms req.room_id with
    | none =>
      rw [create_booking_notFound_eq s req today now newId hrl hfind] at h
      simp at h
    | some room =>
      by_cases h1 : req.check_out_date < req.check_in_date
      · rw [create_booking_invalidRange_eq s req today now newId hrl room hfind h1] at h
        simp at h
      · by_cases h2 : req.check_in_date < today
        · rw [create_booking_pastDate_eq s req today now newId hrl room hfind h1 h2] at h
          simp at h
        · cases hov : hasOverlappingBooking s.bookings req.room_id
              req.check_in_date req.check_out_date with
          | true =>
            rw [create_booking_conflict_eq s req today now newId hrl room hfind h1 h2 hov] at h
            simp at h
          | false =>
            rw [create_booking_ok_eq s req today now newId hrl room hfind h1 h2 hov] at h
            have hb := Except.ok.inj h
            exact ⟨room, rfl, by rw [← hb]⟩

/-- Witness for C3: at room price 8000 the booking [1,3) is created with
total price 16000 and the same-day booking [1,1) with total price 8000, both
matching the pricing formula. -/
theorem claim_C3_total_price_witness :
    ((create_booking exEmptyState exReq13 0 0 10).1 = Except.ok exBooked13)
    ∧ (∃ room, findRoom exEmptyState.rooms exReq13.room_id = some room ∧
        exBooked13.total_price =
          room.price * max 1 (exReq13.check_out_date - exReq13.check_in_date))
    ∧ ((create_booking exEmptyState exReq11 0 0 10).1 = Except.ok exBooked11)
    ∧ exBooked13.total_price = 16000
    ∧ exBooked11.total_price = 8000 :=
  ⟨by rfl,
    claim_C3_total_price exEmptyState exReq13 0 0 10 exBooked13 (by rfl),
    by rfl, by decide, by decide⟩
/-- C4: `create_booking` fails with RateLimited exactly when the guest email
already has at least `rateLimitMax` counted attempts inside the trailing
window; the check holds for every request independently of room id and date
validity (no hypotheses about them), and whenever the request is admitted
past the rate-limit check, its timestamp is recorded even though the booking
may still be rejected for another reason. -/
theorem claim_C4_rate_limit_first (s : BookingState) (req : BookingRequest)
    (today now : Int) (newId : Nat) :
    ((create_booking s req today now newId).1 = Except.error BookingError.rateLimited ↔
      rateLimitMax ≤
        (pruneTimestamps (s.requestsByEmail req.guest_email)
          (now - rateLimitWindow)).length)
    ∧ ((create_booking s req today now newId).1 ≠ Except.error BookingError.rateLimited →
        (create_booking s req today now newId).2.requestsByEmail req.guest_email =
          pruneTimestamps (s.requestsByEmail req.guest_email)
            (now - rateLimitWindow) ++ [now]) := by
  have hiff := (create_booking_anatomy s req today now newId).2.2.1
  have hrate := (create_booking_anatomy s req today now newId).2.1
  constructor
  · rw [hiff]
    exact isRateLimited_fst_iff s.requestsByEmail req.guest_email now
  · intro hne
    have hlim : ¬ rateLimitMax ≤
        (pruneTimestamps (s.requestsByEmail req.guest_email)
          (now - rateLimitWindow)).length := by
      intro hlim
      exact hne (hiff.mpr ((isRateLimited_fst_iff _ _ _).mpr hlim))
    rw [hrate]
    exact isRateLimited_self_false s.requestsByEmail req.guest_email now hlim

/-- Witness for C4 at a concrete state: guest 7 has five in-window attempts
at time 10, so the sixth attempt is RateLimited even though its dates are
valid, while fresh guest 8 is admitted and its attempt is recorded. -/
theorem claim_C4_rate_limit_first_witness :
    (((create_booking exRateState exReq13 0 10 30).1 =
          Except.error BookingError.rateLimited ↔
        rateLimitMax ≤
          (pruneTimestamps (exRateState.requestsByEmail exReq13.guest_email)
            (10 - rateLimitWindow)).length)
      ∧ ((create_booking exRateState exReq13 0 10 30).1 ≠
            Except.error BookingError.rateLimited →
          (create_booking exRateState exReq13 0 10 30).2.requestsByEmail
              exReq13.guest_email =
            pruneTimestamps (exRateState.requestsByEmail exReq13.guest_email)
              (10 - rateLimitWindow) ++ [10]))
    ∧ (create_booking exRateState exReq13 0 10 30).1 =
        Except.error BookingError.rateLimited
    ∧ (create_booking exRateState exReq24 0 10 30).2.requestsByEmail 8 = [10] :=
  ⟨claim_C4_rate_limit_first exRateState exReq13 0 10 30, by rfl, by rfl⟩

/-- C6: on the RateLimited rejection path the guest's rate-limit state is
still updated by the attempt: the stored timestamp list is replaced by its
pruned form (the trailing window advances), and an immediate retry at the
same instant is rejected again, so rejected retries cannot bypass the check. -/
theorem claim_C6_rate_state_advances (s : BookingState) (req : BookingRequest)
    (today now : Int) (newId retryId : Nat)
    (h : (create_booking s req today now newId).1 = Except.error BookingError.rateLimited) :
    (create_booking s req today now newId).2.requestsByEmail req.guest_email =
        pruneTimestamps (s.requestsByEmail req.guest_email) (now - rateLimitWindow)
    ∧ (create_booking ((create_booking s req today now newId).2) req today now retryId).1 =
        Except.error BookingError.rateLimited := by
  have hlim : rateLimitMax ≤
      (pruneTimestamps (s.requestsByEmail req.guest_email)
        (now - rateLimitWindow)).length :=
    (isRateLimited_fst_iff _ _ _).mp
      (((create_booking_anatomy s req today now newId).2.2.1).mp h)
  have hrate : (create_booking s req today now newId).2.requestsByEmail req.guest_email =
      pruneTimestamps (s.requestsByEmail req.guest_email) (now - rateLimitWindow) := by
    rw [(create_booking_anatomy s req today now newId).2.1]
    exact isRateLimited_self_true s.requestsByEmail req.guest_email now hlim
  refine ⟨hrate, ?_⟩
  have hidem : pruneTimestamps
      (pruneTimestamps (s.requestsByEmail req.guest_email) (now - rateLimitWindow))
      (now - rateLimitWindow) =
        pruneTimestamps (s.requestsByEmail req.guest_email) (now - rateLimitWindow) := by
    simp [pruneTimestamps, List.filter_filter]
  have hlim2 : rateLimitMax ≤
      (pruneTimestamps
        ((create_booking s req today now newId).2.requestsByEmail req.guest_email)
        (now - rateLimitWindow)).length := by
    rw [hrate, hidem]
    exact hlim
  exact ((create_booking_anatomy _ req today now retryId).2.2.1).mpr
    ((isRateLimited_fst_iff _ _ _).mpr hlim2)

/-- Witness for C6: guest 7 with one stale and five in-window timestamps is
RateLimited at time 10; the rejection prunes the stale timestamp (a real
state change) and an immediate retry is RateLimited again. -/
theorem claim_C6_rate_state_advances_witness :
    ((create_booking exRateState exReq13 0 10 30).1 =
        Except.error BookingError.rateLimited)
    ∧ ((create_booking exRateState exReq13 0 10 30).2.requestsByEmail
          exReq13.guest_email =
        pruneTimestamps (exRateState.requestsByEmail exReq13.guest_email)
          (10 - rateLimitWindow)
      ∧ (create_booking ((create_booking exRateState exReq13 0 10 30).2)
            exReq13 0 10 31).1 = Except.error BookingError.rateLimited)
    ∧ pruneTimestamps (exRateState.requestsByEmail exReq13.guest_email)
        (10 - rateLimitWindow) ≠ exRateState.requestsByEmail exReq13.guest_email :=
  ⟨by rfl,
    claim_C6_rate_state_advances exRateState exReq13 0 10 30 31 (by rfl),
    by decide⟩

/-- C7: `create_booking` is atomic on rejection: on every error outcome the
room store and the booking store are exactly as before and only the
requesting guest's rate-limit entry may differ; a new booking record is
appended exactly on the success path. -/
theorem claim_C7_atomic_rejection (s : BookingState) (req : BookingRequest)
    (today now : Int) (newId : Nat) :
    (∀ err, (create_booking s req today now newId).1 = Except.error err →
        (create_booking s req today now newId).2.rooms = s.rooms ∧
        (create_booking s req today now newId).2.bookings = s.bookings ∧
        ∀ g, g ≠ req.guest_email →
          (create_booking s req today now newId).2.requestsByEmail g =
            s.requestsByEmail g)
    ∧ (∀ b, (create_booking s req today now newId).1 = Except.ok b →
        (create_booking s req today now newId).2.bookings = s.bookings ++ [b] ∧
        (create_booking s req today now newId).2.rooms = s.rooms) := by
  obtain ⟨hrooms, hrate, _, hcases⟩ := create_booking_anatomy s req today now newId
  constructor
  · intro err herr
    rcases hcases with ⟨_, hbook⟩ | ⟨b, hok, _⟩
    · refine ⟨hrooms, hbook, ?_⟩
      intro g hg
      rw [hrate]
      exact isRateLimited_other s.requestsByEmail req.guest_email now g hg
    · rw [herr] at hok
      exact absurd hok (by simp)
  · intro b hok
    rcases hcases with ⟨⟨err, herr⟩, _⟩ | ⟨b0, hok0, hbook⟩
    · rw [hok] at herr
      exact absurd herr (by simp)
    · rw [hok] at hok0
      rw [← Except.ok.inj hok0] at hbook
      exact ⟨hbook, hrooms⟩

/-- Witness for C7, applied at the concrete conflicting request [2,4) after
booking [1,3): the rejection leaves rooms and bookings untouched. -/
theorem claim_C7_atomic_rejection_witness :
    ((∀ err, (create_booking exStateAfter13 exReq24 0 0 11).1 = Except.error err →
        (create_booking exStateAfter13 exReq24 0 0 11).2.rooms =
            exStateAfter13.rooms ∧
        (create_booking exStateAfter13 exReq24 0 0 11).2.bookings =
            exStateAfter13.bookings ∧
        ∀ g, g ≠ exReq24.guest_email →
          (create_booking exStateAfter13 exReq24 0 0 11).2.requestsByEmail g =
            exStateAfter13.requestsByEmail g)
      ∧ (∀ b, (create_booking exStateAfter13 exReq24 0 0 11).1 = Except.ok b →
          (create_booking exStateAfter13 exReq24 0 0 11).2.bookings =
              exStateAfter13.bookings ++ [b] ∧
          (create_booking exStateAfter13 exReq24 0 0 11).2.rooms =
              exStateAfter13.rooms))
    ∧ (create_booking exStateAfter13 exReq24 0 0 11).2.bookings =
        exStateAfter13.bookings :=
  ⟨claim_C7_atomic_rejection exStateAfter13 exReq24 0 0 11, by rfl⟩

theorem cancelMark_eq_self_of_cancelled (bookingId : Nat) (b : Booking)
    (h : b.id = bookingId → b.status = BookingStatus.cancelled) :
    cancelMark bookingId b = b := by
  unfold cancelMark
  by_cases hid : b.id == bookingId
  · have hst := h (by simpa using hid)
    simp only [hid, if_true]
    rw [← hst]
  · simp [hid]

theorem cancelMark_eq_self_of_confirmed (bookingId : Nat) (b : Booking)
    (h : (cancelMark bookingId b).status = BookingStatus.confirmed) :
    cancelMark bookingId b = b := by
  unfold cancelMark at h ⊢
  by_cases hid : b.id == bookingId
  · simp [hid] at h
  · simp [hid]

theorem hasOverlappingBooking_filter_confirmed (bs : List Booking) (roomId : Nat)
    (ci co : Int) :
    hasOverlappingBooking
        (bs.filter (fun b => b.status == BookingStatus.confirmed)) roomId ci co =
      hasOverlappingBooking bs roomId ci co := by
  induction bs with
  | nil => rfl
  | cons b t ih =>
    cases hb : (b.status == BookingStatus.confirmed) with
    | true =>
      simp only [hasOverlappingBooking] at ih ⊢
      simp [List.filter_cons, hb, ih]
    | false =>
      have hcb : bookingConflicts b roomId ci co = false := by
        simp [bookingConflicts, hb]
      simp only [hasOverlappingBooking] at ih ⊢
      simp [List.filter_cons, hb, hcb, ih]

/-- C10 helper: a Confirmed booking with an empty half-open interval [x,x)
still trips the overlap test, exactly for requested ranges [a,c) with
`a < x < c`. -/
theorem bookingConflicts_empty_interval_iff (b : Booking)
    (hb : b.check_in_date = b.check_out_date) (roomId : Nat) (a c : Int) :
    bookingConflicts b roomId a c = true ↔
      (b.room_id = roomId ∧ b.status = BookingStatus.confirmed ∧
        a < b.check_in_date ∧ b.check_in_date < c) := by
  constructor
  · intro h
    simp [bookingConflicts, and_assoc] at h
    obtain ⟨h1, h2, h3, h4⟩ := h
    exact ⟨h1, h2, by omega, by omega⟩
  · intro h
    obtain ⟨h1, h2, h3, h4⟩ := h
    simp [bookingConflicts, h1, h2]
    omega

/-- C5 counterexample: cancelling booking 1, which is already Cancelled,
returns true, contradicting the claim that it returns false. -/
theorem claim_C5_counterexample :
    exCancelledBooking ∈ exStateCancelled.bookings ∧
    exCancelledBooking.id = 1 ∧
    exCancelledBooking.status = BookingStatus.cancelled ∧
    (cancel_booking exStateCancelled 1).1 = true :=
  ⟨by decide, by decide, by decide, by rfl⟩

/-- C5 (amended): `cancel_booking` returns false and leaves the state
unchanged when the id is unknown; for a known id it returns true even when
the booking is already Cancelled, in which case it is a no-op (state
unchanged, never errors, never re-activates); bookings are never deleted, a
booking Confirmed afterwards was already Confirmed before, and non-Confirmed
(in particular Cancelled) bookings are ignored by the overlap check. -/
theorem claim_C5_cancel_amended (s : BookingState) (bookingId : Nat) :
    ((∀ b ∈ s.bookings, b.id ≠ bookingId) →
        cancel_booking s bookingId = (false, s))
    ∧ ((∃ b ∈ s.bookings, b.id = bookingId) →
        (cancel_booking s bookingId).1 = true)
    ∧ ((∀ b ∈ s.bookings, b.id = bookingId → b.status = BookingStatus.cancelled) →
        (cancel_booking s bookingId).2 = s)
    ∧ (∀ b ∈ (cancel_booking s bookingId).2.bookings,
        b.status = BookingStatus.confirmed → b ∈ s.bookings)
    ∧ (cancel_booking s bookingId).2.bookings.length = s.bookings.length
    ∧ (∀ bs : List Booking, ∀ roomId : Nat, ∀ ci co : Int,
        hasOverlappingBooking
          (bs.filter (fun b => b.status == BookingStatus.confirmed)) roomId ci co =
        hasOverlappingBooking bs roomId ci co) := by
  refine ⟨?_, ?_, ?_, ?_, ?_, ?_⟩
  · intro h
    have hany : s.bookings.any (fun b => b.id == bookingId) = false := by
      simp only [List.any_eq_false, beq_iff_eq]
      exact h
    simp [cancel_booking, hany]
  · intro h
    obtain ⟨b, hb, hid⟩ := h
    have hany : s.bookings.any (fun x => x.id == bookingId) = true := by
      simp only [List.any_eq_true, beq_iff_eq]
      exact ⟨b, hb, hid⟩
    simp [cancel_booking, hany]
  · intro h
    cases hany : s.bookings.any (fun x => x.id == bookingId) with
    | false => simp [cancel_booking, hany]
    | true =>
      simp only [cancel_booking, hany, if_true]
      have h1 : s.bookings.map (cancelMark bookingId) = s.bookings.map id :=
        List.map_congr_left
          (fun b hb => cancelMark_eq_self_of_cancelled bookingId b (h b hb))
      have hmap : s.bookings.map (cancelMark bookingId) = s.bookings := by
        rw [h1, List.map_id]
      cases s with
      | mk rooms bookings rate =>
        simp only at hmap ⊢
        rw [hmap]
  · intro b hb hconf
    cases hany : s.bookings.any (fun x => x.id == bookingId) with
    | false =>
      simp [cancel_booking, hany] at hb
      exact hb
    | true =>
      simp only [cancel_booking, hany, if_true] at hb
      simp only [List.mem_map] at hb
      obtain ⟨a, ha, heq⟩ := hb
      rw [← heq] at hconf ⊢
      rw [cancelMark_eq_self_of_confirmed bookingId a hconf]
      exact ha
  · cases hany : s.bookings.any (fun x => x.id == bookingId) with
    | false => simp [cancel_booking, hany]
    | true => simp [cancel_booking, hany]
  · intro bs roomId ci co
    exact hasOverlappingBooking_filter_confirmed bs roomId ci co

/-- Witness for C5 (amended): unknown id 999 returns false with the state
unchanged; cancelling the already-cancelled booking 1 returns true and is a
no-op on the state. -/
theorem claim_C5_cancel_amended_witness :
    cancel_booking exStateCancelled 999 = (false, exStateCancelled)
    ∧ (cancel_booking exStateCancelled 1).1 = true
    ∧ (cancel_booking exStateCancelled 1).2 = exStateCancelled :=
  ⟨(claim_C5_cancel_amended exStateCancelled 999).1 (by decide),
    (claim_C5_cancel_amended exStateCancelled 1).2.1 (by decide),
    (claim_C5_cancel_amended exStateCancelled 1).2.2.1 (by decide)⟩

/-- C10 counterexample: the same-day request [2,2) on a room holding the
Confirmed booking [1,3) is rejected with Conflict, and an existing Confirmed
same-day booking [2,2) gets the request [1,3) rejected with Conflict — both
parts of the claim fail. -/
theorem claim_C10_counterexample :
    exReq22.check_in_date = exReq22.check_out_date ∧
    (create_booking exStateAfter13 exReq22 0 0 21).1 =
      Except.error BookingError.conflict ∧
    exSameDayBooking.check_in_date = exSameDayBooking.check_out_date ∧
    exSameDayBooking.status = BookingStatus.confirmed ∧
    (create_booking exStateSameDay exReq13 0 0 22).1 =
      Except.error BookingError.conflict :=
  ⟨by decide, by rfl, by decide, by decide, by rfl⟩

/-- C10 (amended): a same-day request (check_in = check_out = x) fails with
Conflict iff some Confirmed booking on the room strictly contains x
(c < x < d); an existing Confirmed booking with empty interval [x,x)
conflicts with exactly the requested ranges [a,c) having a < x < c; an
empty-interval booking at the requested date never conflicts with the
same-day request itself, so two same-day bookings for the same room and date
can both be Confirmed, each billed one night. -/
theorem claim_C10_same_day_amended (s : BookingState) (req : BookingRequest)
    (today now : Int) (newId : Nat)
    (hsame : req.check_in_date = req.check_out_date)
    (hrl : (isRateLimited s.requestsByEmail req.guest_email now).1 = false)
    (hroom : (findRoom s.rooms req.room_id).isSome = true)
    (hpast : today ≤ req.check_in_date) :
    ((create_booking s req today now newId).1 = Except.error BookingError.conflict ↔
      ∃ b ∈ s.bookings, b.room_id = req.room_id ∧
        b.status = BookingStatus.confirmed ∧
        b.check_in_date < req.check_in_date ∧
        req.check_in_date < b.check_out_date)
    ∧ (∀ b : Booking, b.check_in_date = b.check_out_date →
        ∀ roomId : Nat, ∀ a c : Int,
          (bookingConflicts b roomId a c = true ↔
            (b.room_id = roomId ∧ b.status = BookingStatus.confirmed ∧
              a < b.check_in_date ∧ b.check_in_date < c)))
    ∧ (∀ b : Booking, b.check_in_date = req.check_in_date →
        b.check_out_date = req.check_in_date →
        bookingConflicts b req.room_id req.check_in_date req.check_out_date
          = false) := by
  refine ⟨?_, ?_, ?_⟩
  · have hrange : req.check_in_date ≤ req.check_out_date := le_of_eq hsame
    rw [create_booking_conflict_iff s req today now newId hrl hroom hrange hpast,
      hasOverlappingBooking_eq_true_iff]
    rw [← hsame]
  · intro b hb roomId a c
    exact bookingConflicts_empty_interval_iff b hb roomId a c
  · intro b hb1 hb2
    cases hcb : bookingConflicts b req.room_id req.check_in_date req.check_out_date with
    | false => rfl
    | true =>
      exfalso
      have h := (bookingConflicts_empty_interval_iff b (by omega)
        req.room_id req.check_in_date req.check_out_date).mp hcb
      obtain ⟨_, _, h3, h4⟩ := h
      omega

/-- Witness for C10 (amended): the strict-containment iff holds at the
same-day request [2,2) against the booking [1,3), and two same-day bookings
[2,2) by different guests both succeed on the same room and date, each billed
8000 (one night). -/
theorem claim_C10_same_day_amended_witness :
    ((create_booking exStateAfter13 exReq22 0 0 21).1 =
        Except.error BookingError.conflict ↔
      ∃ b ∈ exStateAfter13.bookings, b.room_id = exReq22.room_id ∧
        b.status = BookingStatus.confirmed ∧
        b.check_in_date < exReq22.check_in_date ∧
        exReq22.check_in_date < b.check_out_date)
    ∧ (create_booking exStateAfter13 exReq22 0 0 21).1 =
        Except.error BookingError.conflict
    ∧ (create_booking exEmptyState exReq22 0 0 30).1 =
        Except.ok
          { id := 30, room_id := 1, hotel_id := 1, guest_email := 8,
            check_in_date := 2, check_out_date := 2, total_price := 8000,
            status := BookingStatus.confirmed }
    ∧ (create_booking (create_booking exEmptyState exReq22 0 0 30).2
          exReq22b 0 0 31).1 =
        Except.ok
          { id := 31, room_id := 1, hotel_id := 1, guest_email := 9,
            check_in_date := 2, check_out_date := 2, total_price := 8000,
            status := BookingStatus.confirmed } :=
  ⟨(claim_C10_same_day_amended exStateAfter13 exReq22 0 0 21 (by decide)
      (by decide) (by decide) (by decide)).1,
    by rfl, by rfl, by rfl⟩

theorem bool_eq_of_iff (a b : Bool) (h : a = true ↔ b = true) : a = b := by
  cases a <;> cases b <;> simp_all

theorem idMember_eq_true_iff (ids : List Nat) (i : Nat) :
    idMember ids i = true ↔ i ∈ ids := by
  simp [idMember, List.any_eq_true]

theorem idMember_filter_map (db : List Hotel) (keep : Hotel → Bool)
    (hnodup : (db.map (fun x => x.id)).Nodup) (h : Hotel) (hmem : h ∈ db) :
    idMember ((db.filter keep).map (fun x => x.id)) h.id = keep h := by
  cases hk : keep h with
  | true =>
    refine (idMember_eq_true_iff _ _).mpr ?_
    exact List.mem_map_of_mem _ (List.mem_filter.mpr ⟨hmem, hk⟩)
  | false =>
    cases hm : idMember ((db.filter keep).map (fun x => x.id)) h.id with
    | false => rfl
    | true =>
      exfalso
      have hmem2 := (idMember_eq_true_iff _ _).mp hm
      simp only [List.mem_map] at hmem2
      obtain ⟨a, hamem, haid⟩ := hmem2
      have hafil := List.mem_filter.mp hamem
      have hah : a = h := List.inj_on_of_nodup_map hnodup hafil.1 hmem haid
      rw [hah] at hafil
      rw [hk] at hafil
      exact Bool.false_ne_true hafil.2

theorem idMember_filter_inter (l1 l2 : List Nat) (i : Nat) :
    idMember (l1.filter (fun j => idMember l2 j)) i =
      (idMember l1 i && idMember l2 i) := by
  apply bool_eq_of_iff
  rw [idMember_eq_true_iff, Bool.and_eq_true, idMember_eq_true_iff,
    idMember_eq_true_iff]
  constructor
  · intro hm
    have hf := List.mem_filter.mp hm
    exact ⟨hf.1, (idMember_eq_true_iff _ _).mp hf.2⟩
  · intro hb
    exact List.mem_filter.mpr ⟨hb.1, (idMember_eq_true_iff _ _).mpr hb.2⟩

theorem searchCompute_eq_specSearch (db : List Hotel) (city hotel_name : Option Str)
    (limit : Nat) (hnodup : (db.map (fun x => x.id)).Nodup) :
    searchCompute db db city hotel_name limit =
      specSearch db city hotel_name limit := by
  cases hc : given city with
  | false =>
    cases hn : given hotel_name with
    | false =>
      simp [searchCompute, specSearch, hc, hn]
    | true =>
      simp only [searchCompute, specSearch, hc, hn]
      simp only [Bool.not_true, Bool.not_false, Bool.true_and, Bool.false_and,
        Bool.and_false, Bool.and_true, Bool.false_or, Bool.true_or,
        Bool.false_eq_true, if_false, if_true, ite_false, ite_true]
      congr 1
      refine List.filter_congr ?_
      intro a ha
      exact idMember_filter_map db _ hnodup a ha
  | true =>
    cases hn : given hotel_name with
    | false =>
      simp only [searchCompute, specSearch, hc, hn]
      simp only [Bool.not_true, Bool.not_false, Bool.true_and, Bool.false_and,
        Bool.and_false, Bool.and_true, Bool.false_or, Bool.true_or, Bool.or_false,
        Bool.false_eq_true, if_false, if_true, ite_false, ite_true]
      congr 1
      refine List.filter_congr ?_
      intro a ha
      exact idMember_filter_map db
        (fun h => lowerStr h.city == lowerStr (city.getD [])) hnodup a ha
    | true =>
      simp only [searchCompute, specSearch, hc, hn]
      simp only [Bool.not_true, Bool.not_false, Bool.true_and, Bool.false_and,
        Bool.and_false, Bool.and_true, Bool.false_or, Bool.true_or,
        Bool.false_eq_true, if_false, if_true, ite_false, ite_true]
      congr 1
      refine List.filter_congr ?_
      intro a ha
      rw [idMember_filter_inter]
      congr 1
      · exact idMember_filter_map db
          (fun h => lowerStr h.city == lowerStr (city.getD [])) hnodup a ha
      · exact idMember_filter_map db
          (fun h => nameMatch (hotel_name.getD []) h) hnodup a ha

theorem searchCompute_norm_key (db idx : List Hotel) (city hotel_name : Option Str)
    (limit : Nat) :
    searchCompute db idx (some (city.getD [])) (some (hotel_name.getD [])) limit =
      searchCompute db idx city hotel_name limit := by
  cases city <;> cases hotel_name <;> rfl

theorem lookupEntry_mem (cache : List (CacheKey × List Hotel × Int)) (k : CacheKey)
    (res : List Hotel) (exp : Int)
    (h : lookupEntry cache k = some (res, exp)) : (k, res, exp) ∈ cache := by
  unfold lookupEntry at h
  cases hf : cache.find? (fun e => e.1 == k) with
  | none =>
    rw [hf] at h
    simp at h
  | some e =>
    rw [hf] at h
    have hmem := List.mem_of_find?_eq_some hf
    have hpred := List.find?_some hf
    obtain ⟨e1, e2⟩ := e
    simp only [Option.map] at h
    have hk : e1 = k := by simpa using hpred
    subst hk
    have h2 : e2 = (res, exp) := Option.some.inj h
    subst h2
    exact hmem

theorem mem_setEntry (cache : List (CacheKey × List Hotel × Int)) (k0 : CacheKey)
    (res0 : List Hotel) (now : Int) (k : CacheKey) (res : List Hotel) (exp : Int)
    (h : (k, res, exp) ∈ setEntry cache k0 res0 now) :
    (k, res, exp) ∈ cache ∨ (k = k0 ∧ res = res0 ∧ exp = now + cacheTTL) := by
  simp only [setEntry, eraseEntry, List.mem_append, List.mem_filter,
    List.mem_singleton] at h
  rcases h with ⟨hmem, _⟩ | heq
  · exact Or.inl hmem
  · right
    rw [Prod.ext_iff] at heq
    obtain ⟨h1, h2⟩ := heq
    rw [Prod.ext_iff] at h2
    exact ⟨h1, h2.1, h2.2⟩

theorem search_hotels_miss_post (s : SearchState) (city hotel_name : Option Str)
    (limit : Nat) (now : Int)
    (hl : lookupEntry s.cache (cache_key city hotel_name limit) = none) :
    search_hotels s city hotel_name limit now =
      (searchCompute s.dbHotels s.idxHotels city hotel_name limit,
        { s with
            cache :=
              setEntry s.cache (cache_key city hotel_name limit)
                (searchCompute s.dbHotels s.idxHotels city hotel_name limit)
                now }) := by
  simp [search_hotels, hl]

theorem search_hotels_expired_post (s : SearchState) (city hotel_name : Option Str)
    (limit : Nat) (now : Int) (res2 : List Hotel) (exp2 : Int)
    (hl : lookupEntry s.cache (cache_key city hotel_name limit) = some (res2, exp2))
    (hexp : exp2 < now) :
    search_hotels s city hotel_name limit now =
      (searchCompute s.dbHotels s.idxHotels city hotel_name limit,
        { s with
            cache :=
              setEntry s.cache (cache_key city hotel_name limit)
                (searchCompute s.dbHotels s.idxHotels city hotel_name limit)
                now }) := by
  simp [search_hotels, hl, hexp]

theorem search_hotels_hit_eq (s : SearchState) (city hotel_name : Option Str)
    (limit : Nat) (now : Int) (res2 : List Hotel) (exp2 : Int)
    (hl : lookupEntry s.cache (cache_key city hotel_name limit) = some (res2, exp2))
    (hfresh : ¬ exp2 < now) :
    search_hotels s city hotel_name limit now = (res2, s) := by
  simp [search_hotels, hl, hfresh]

theorem cacheConsistent_applySearchOp (s : SearchState) (op : SearchOp)
    (h : CacheConsistent s) : CacheConsistent (applySearchOp s op) := by
  cases op with
  | rebuild =>
    intro k res exp hmem
    simp [applySearchOp, rebuild_indexes] at hmem
  | search city hotel_name limit now =>
    intro k res exp hmem
    simp only [applySearchOp] at hmem ⊢
    cases hl : lookupEntry s.cache (cache_key city hotel_name limit) with
    | none =>
      rw [search_hotels_miss_post s city hotel_name limit now hl] at hmem ⊢
      rcases mem_setEntry _ _ _ _ _ _ _ hmem with hold | ⟨hk, hres, _⟩
      · obtain ⟨c2, n2, l2, hk2, hres2⟩ := h k res exp hold
        exact ⟨c2, n2, l2, hk2, hres2⟩
      · subst hk
        exact ⟨city, hotel_name, limit, rfl, hres⟩
    | some entry =>
      obtain ⟨res2, exp2⟩ := entry
      by_cases hexp : exp2 < now
      · rw [search_hotels_expired_post s city hotel_name limit now res2 exp2 hl hexp]
          at hmem ⊢
        rcases mem_setEntry _ _ _ _ _ _ _ hmem with hold | ⟨hk, hres, _⟩
        · obtain ⟨c2, n2, l2, hk2, hres2⟩ := h k res exp hold
          exact ⟨c2, n2, l2, hk2, hres2⟩
        · subst hk
          exact ⟨city, hotel_name, limit, rfl, hres⟩
      · rw [search_hotels_hit_eq s city hotel_name limit now res2 exp2 hl hexp]
          at hmem ⊢
        obtain ⟨c2, n2, l2, hk2, hres2⟩ := h k res exp hmem
        exact ⟨c2, n2, l2, hk2, hres2⟩

theorem runSearchOps_consistent (s0 : SearchState) (ops : List SearchOp)
    (h : CacheConsistent s0) : CacheConsistent (runSearchOps s0 ops) := by
  induction ops generalizing s0 with
  | nil => exact h
  | cons op rest ih => exact ih _ (cacheConsistent_applySearchOp s0 op h)

/-- C8: on a cache miss over in-sync indexes with distinct hotel ids,
`search_hotels` returns exactly the hotels of the spec-side filter — exact
case-insensitive city match, name match by query words contained as
substrings of indexed name words (union across query words), intersection
when both filters are given — truncated to `limit`. -/
theorem claim_C8_search_semantics (s : SearchState) (city hotel_name : Option Str)
    (limit : Nat) (now : Int)
    (hsync : s.idxHotels = s.dbHotels)
    (hnodup : (s.dbHotels.map (fun x => x.id)).Nodup)
    (hmiss : lookupEntry s.cache (cache_key city hotel_name limit) = none) :
    (search_hotels s city hotel_name limit now).1 =
      specSearch s.dbHotels city hotel_name limit
    ∧ (search_hotels s city hotel_name limit now).1.length ≤ limit := by
  have h1 : (search_hotels s city hotel_name limit now).1 =
      searchCompute s.dbHotels s.idxHotels city hotel_name limit := by
    rw [search_hotels_miss_post s city hotel_name limit now hmiss]
  rw [h1, hsync, searchCompute_eq_specSearch s.dbHotels city hotel_name limit hnodup]
  refine ⟨rfl, ?_⟩
  simp only [specSearch]
  exact List.length_take_le _ _

/-- Witness for C8 on the three scenario hotels: searching city "mumbai"
returns the two Mumbai hotels, name "Royal" returns exactly Royal Mumbai
Resort, and city "Mumbai" with name "Grand" returns exactly Mumbai Grand
Hotel. -/
theorem claim_C8_search_semantics_witness :
    ((search_hotels exSearchState (some "mumbai".toList) none 50 0).1 =
        specSearch exSearchState.dbHotels (some "mumbai".toList) none 50
      ∧ (search_hotels exSearchState (some "mumbai".toList) none 50 0).1.length ≤ 50)
    ∧ (search_hotels exSearchState (some "mumbai".toList) none 50 0).1 =
        [hMumbaiGrand, hRoyal]
    ∧ (search_hotels exSearchState none (some "Royal".toList) 50 0).1 = [hRoyal]
    ∧ (search_hotels exSearchState (some "Mumbai".toList)
        (some "Grand".toList) 50 0).1 = [hMumbaiGrand] :=
  ⟨claim_C8_search_semantics exSearchState (some "mumbai".toList) none 50 0
      (by rfl) (by decide) (by rfl),
    by decide, by decide, by decide⟩
/-- C9 helper: the accumulator of `natDigitsCore` is a suffix. -/
theorem natDigitsCore_acc (fuel : Nat) :
    ∀ n acc, natDigitsCore fuel n acc = natDigitsCore fuel n [] ++ acc := by
  induction fuel with
  | zero =>
    intro n acc
    rfl
  | succ fuel ih =>
    intro n acc
    by_cases h : n < 10
    · simp [natDigitsCore, h]
    · simp only [natDigitsCore]
      rw [if_neg h, if_neg h]
      rw [ih (n / 10) (digitChar (n % 10) :: acc), ih (n / 10) [digitChar (n % 10)]]
      simp

/-- C9 helper: any sufficient fuel computes the same digit string. -/
theorem natDigitsCore_fuel_irrel (n : Nat) :
    ∀ fuel1 fuel2 acc, n < fuel1 → n < fuel2 →
      natDigitsCore fuel1 n acc = natDigitsCore fuel2 n acc := by
  induction n using Nat.strong_induction_on with
  | _ n ih =>
    intro fuel1 fuel2 acc h1 h2
    cases fuel1 with
    | zero => omega
    | succ f1 =>
      cases fuel2 with
      | zero => omega
      | succ f2 =>
        by_cases h10 : n < 10
        · simp [natDigitsCore, h10]
        · simp only [natDigitsCore]
          rw [if_neg h10, if_neg h10]
          have hd : n / 10 < n := Nat.div_lt_self (by omega) (by omega)
          exact ih (n / 10) hd f1 f2 _ (by omega) (by omega)

theorem natDigits_lt (n : Nat) (h : n < 10) : natDigits n = [digitChar n] := by
  simp [natDigits, natDigitsCore, h]

theorem natDigits_ge (n : Nat) (h : ¬ n < 10) :
    natDigits n = natDigits (n / 10) ++ [digitChar (n % 10)] := by
  have hd : n / 10 < n := Nat.div_lt_self (by omega) (by omega)
  have h1 : natDigits n = natDigitsCore n (n / 10) [digitChar (n % 10)] := by
    simp only [natDigits, natDigitsCore]
    rw [if_neg h]
  rw [h1,
    natDigitsCore_fuel_irrel (n / 10) n (n / 10 + 1) [digitChar (n % 10)]
      (by omega) (by omega)]
  exact natDigitsCore_acc (n / 10 + 1) (n / 10) [digitChar (n % 10)]

theorem natDigits_ne_nil (n : Nat) : natDigits n ≠ [] := by
  by_cases h : n < 10
  · rw [natDigits_lt n h]
    simp
  · rw [natDigits_ge n h]
    simp

theorem digitChar_inj_lt : ∀ d, d < 10 → ∀ e, e < 10 →
    digitChar d = digitChar e → d = e := by decide

theorem digitChar_ne_bar : ∀ d, d < 10 → digitChar d ≠ barChar := by decide

theorem bar_not_mem_natDigits (n : Nat) : barChar ∉ natDigits n := by
  induction n using Nat.strong_induction_on with
  | _ n ih =>
    by_cases h : n < 10
    · rw [natDigits_lt n h]
      intro hmem
      have heq : barChar = digitChar n := by simpa using hmem
      exact digitChar_ne_bar n h heq.symm
    · rw [natDigits_ge n h]
      intro hmem
      rcases List.mem_append.mp hmem with hm | hm
      · exact ih (n / 10) (Nat.div_lt_self (by omega) (by omega)) hm
      · have heq : barChar = digitChar (n % 10) := by simpa using hm
        exact digitChar_ne_bar (n % 10) (Nat.mod_lt n (by omega)) heq.symm

theorem append_singleton_inj (a b : Str) (x y : Char) (h : a ++ [x] = b ++ [y]) :
    a = b ∧ x = y := by
  have hlen : a.length = b.length := by
    have h2 := congrArg List.length h
    simp at h2
    omega
  obtain ⟨h1, h2⟩ := List.append_inj h hlen
  exact ⟨h1, by simpa using h2⟩

/-- C9 helper: the decimal rendering of the limit is injective. -/
theorem natDigits_inj (n : Nat) : ∀ m, natDigits n = natDigits m → n = m := by
  induction n using Nat.strong_induction_on with
  | _ n ih =>
    intro m h
    by_cases hn : n < 10
    · by_cases hm : m < 10
      · rw [natDigits_lt n hn, natDigits_lt m hm] at h
        have heq : digitChar n = digitChar m := by simpa using h
        exact digitChar_inj_lt n hn m hm heq
      · exfalso
        rw [natDigits_lt n hn, natDigits_ge m hm] at h
        have hlen := congrArg List.length h
        simp only [List.length_append, List.length_cons, List.length_nil] at hlen
        exact natDigits_ne_nil (m / 10) (List.eq_nil_of_length_eq_zero (by omega))
    · by_cases hm : m < 10
      · exfalso
        rw [natDigits_ge n hn, natDigits_lt m hm] at h
        have hlen := congrArg List.length h
        simp only [List.length_append, List.length_cons, List.length_nil] at hlen
        exact natDigits_ne_nil (n / 10) (List.eq_nil_of_length_eq_zero (by omega))
      · rw [natDigits_ge n hn, natDigits_ge m hm] at h
        obtain ⟨h1, h2⟩ := append_singleton_inj _ _ _ _ h
        have hdiv := ih (n / 10) (Nat.div_lt_self (by omega) (by omega)) (m / 10) h1
        have hmod := digitChar_inj_lt (n % 10) (Nat.mod_lt n (by omega))
          (m % 10) (Nat.mod_lt m (by omega)) h2
        omega

/-- C9 helper: splitting two strings at a delimiter absent from both
prefixes. -/
theorem append_bar_inj (a : Str) :
    ∀ a2 b b2 : Str, barChar ∉ a → barChar ∉ a2 →
      a ++ barChar :: b = a2 ++ barChar :: b2 → a = a2 ∧ b = b2 := by
  induction a with
  | nil =>
    intro a2 b b2 _ ha2 h
    cases a2 with
    | nil => simpa using h
    | cons y ys =>
      exfalso
      simp only [List.nil_append, List.cons_append, List.cons.injEq] at h
      refine ha2 ?_
      rw [h.1]
      exact List.mem_cons_self y ys
  | cons x xs ih =>
    intro a2 b b2 ha ha2 h
    cases a2 with
    | nil =>
      exfalso
      simp only [List.nil_append, List.cons_append, List.cons.injEq] at h
      refine ha ?_
      rw [← h.1]
      exact List.mem_cons_self x xs
    | cons y ys =>
      simp only [List.cons_append, List.cons.injEq] at h
      obtain ⟨hxy, htail⟩ := h
      obtain ⟨he, hb⟩ := ih ys b b2 (fun hc => ha (List.mem_cons_of_mem _ hc))
        (fun hc => ha2 (List.mem_cons_of_mem _ hc)) htail
      refine ⟨?_, hb⟩
      rw [hxy, he]

theorem cache_key_count_bar (city hotel_name : Option Str) (limit : Nat) :
    (cache_key city hotel_name limit).count barChar =
      2 + (city.getD []).count barChar + (hotel_name.getD []).count barChar := by
  have hc : ("city=".toList).count barChar = 0 := by decide
  have hn : ("name=".toList).count barChar = 0 := by decide
  have hl : ("limit=".toList).count barChar = 0 := by decide
  have hd : (natDigits limit).count barChar = 0 :=
    List.count_eq_zero.mpr (bar_not_mem_natDigits limit)
  unfold cache_key
  simp only [List.count_append, List.count_cons_self]
  rw [hc, hn, hl, hd]
  omega

/-- C9 helper: on queries whose city and name contain no pipe delimiter the
flat cache key is injective (the colliding side is then forced to be
delimiter-free as well, by counting the pipes). -/
theorem cache_key_inj_of_no_bar (city hotel_name city2 hotel_name2 : Option Str)
    (limit limit2 : Nat)
    (hc : barChar ∉ city.getD []) (hn : barChar ∉ hotel_name.getD [])
    (hkey : cache_key city hotel_name limit = cache_key city2 hotel_name2 limit2) :
    city.getD [] = city2.getD [] ∧ hotel_name.getD [] = hotel_name2.getD [] ∧
      limit = limit2 := by
  have hcount := congrArg (fun l => l.count barChar) hkey
  simp only [cache_key_count_bar] at hcount
  have hc0 : (city.getD []).count barChar = 0 := List.count_eq_zero.mpr hc
  have hn0 : (hotel_name.getD []).count barChar = 0 := List.count_eq_zero.mpr hn
  have hc2 : barChar ∉ city2.getD [] := by
    rw [← List.count_eq_zero]
    omega
  have hn2 : barChar ∉ hotel_name2.getD [] := by
    rw [← List.count_eq_zero]
    omega
  unfold cache_key at hkey
  have h1 := (List.append_inj hkey rfl).2
  obtain ⟨hcc, hrest⟩ := append_bar_inj _ _ _ _ hc hc2 h1
  have h2 := (List.append_inj hrest rfl).2
  obtain ⟨hnn, hrest2⟩ := append_bar_inj _ _ _ _ hn hn2 h2
  have h3 := (List.append_inj hrest2 rfl).2
  exact ⟨hcc, hnn, natDigits_inj limit limit2 h3⟩

/-- C9 counterexample: the flat unescaped cache key collides for the two
distinct queries (city `x|name=y`, no name) and (city `x`, name `y|name=`);
after the first query is cached, the second query — and any repeat of it
within the TTL, since the hit leaves the state unchanged — returns the first
query's stored result `[hPipe]`, while recomputation from the same index
state returns `[]`.  This refutes the claim that a stored result served
within the TTL is identical in content to recomputation. -/
theorem claim_C9_counterexample :
    cache_key (some "x|name=y".toList) none 50 =
      cache_key (some "x".toList) (some "y|name=".toList) 50
    ∧ (search_hotels exCollideState (some "x".toList) (some "y|name=".toList)
        50 30).1 = [hPipe]
    ∧ (search_hotels exCollideState (some "x".toList) (some "y|name=".toList)
        50 30).2 = exCollideState
    ∧ searchCompute exCollideState.dbHotels exCollideState.idxHotels
        (some "x".toList) (some "y|name=".toList) 50 = [] :=
  ⟨by rfl, by rfl, by rfl, by rfl⟩

/-- C9 (amended): over any run of search and rebuild operations from a
freshly built service, a cache hit (same key, not expired) returns the stored
result with the state unchanged, without consulting the indexes (the same
value is returned whatever the index snapshot holds); the stored result is
identical to what recomputation from the current database and index snapshot
produces for the parameters that stored it, which share the query's flat key
string — and whenever the query's city and name contain no pipe delimiter the
key is collision-free, so the hit result is identical to recomputation for
the query itself; `rebuild_indexes` clears the whole cache unconditionally,
and a search right after it recomputes from the rebuilt indexes. -/
theorem claim_C9_cache_correctness_amended (db0 : List Hotel) (ops : List SearchOp)
    (s : SearchState) (hs : s = runSearchOps (initialSearchState db0) ops) :
    (∀ city hotel_name limit now res exp,
        lookupEntry s.cache (cache_key city hotel_name limit) = some (res, exp) →
        ¬ exp < now →
        (search_hotels s city hotel_name limit now = (res, s)
          ∧ (∀ idx2 : List Hotel,
              (search_hotels { s with idxHotels := idx2 }
                city hotel_name limit now).1 = res)
          ∧ (∃ city2 hotel_name2 limit2,
              cache_key city2 hotel_name2 limit2 = cache_key city hotel_name limit ∧
              res = searchCompute s.dbHotels s.idxHotels city2 hotel_name2 limit2)
          ∧ (barChar ∉ city.getD [] → barChar ∉ hotel_name.getD [] →
              res = searchCompute s.dbHotels s.idxHotels city hotel_name limit)))
    ∧ (rebuild_indexes s).cache = []
    ∧ (∀ city hotel_name limit now,
        (search_hotels (rebuild_indexes s) city hotel_name limit now).1 =
          searchCompute s.dbHotels s.dbHotels city hotel_name limit) := by
  have hcons : CacheConsistent s := by
    rw [hs]
    refine runSearchOps_consistent (initialSearchState db0) ops ?_
    intro k res exp hmem
    simp [initialSearchState] at hmem
  refine ⟨?_, rfl, ?_⟩
  · intro city hotel_name limit now res exp hl hfresh
    have hmem := lookupEntry_mem s.cache (cache_key city hotel_name limit)
      res exp hl
    obtain ⟨c2, n2, l2, hk, hres⟩ :=
      hcons (cache_key city hotel_name limit) res exp hmem
    refine ⟨search_hotels_hit_eq s city hotel_name limit now res exp hl hfresh,
      ?_, ⟨c2, n2, l2, hk.symm, hres⟩, ?_⟩
    · intro idx2
      rw [search_hotels_hit_eq { s with idxHotels := idx2 }
        city hotel_name limit now res exp hl hfresh]
    · intro hc hn
      obtain ⟨hec, hen, hel⟩ := cache_key_inj_of_no_bar city hotel_name c2 n2
        limit l2 hc hn hk
      rw [hres, ← searchCompute_norm_key s.dbHotels s.idxHotels c2 n2 l2,
        ← hec, ← hen, ← hel,
        searchCompute_norm_key s.dbHotels s.idxHotels city hotel_name limit]
  · intro city hotel_name limit now
    exact congrArg Prod.fst
      (search_hotels_miss_post (rebuild_indexes s) city hotel_name limit now rfl)

/-- Witness for C9 (amended): after one cached search for city "mumbai" (a
delimiter-free query), a repeat call inside the TTL returns the stored
two-hotel result with the state unchanged and equal to recomputation, and a
rebuild empties the cache. -/
theorem claim_C9_cache_correctness_amended_witness :
    (search_hotels (runSearchOps (initialSearchState exHotels)
          [SearchOp.search (some "mumbai".toList) none 50 0])
        (some "mumbai".toList) none 50 30 =
      ([hMumbaiGrand, hRoyal],
        runSearchOps (initialSearchState exHotels)
          [SearchOp.search (some "mumbai".toList) none 50 0]))
    ∧ [hMumbaiGrand, hRoyal] =
        searchCompute exHotels exHotels (some "mumbai".toList) none 50
    ∧ (rebuild_indexes (runSearchOps (initialSearchState exHotels)
          [SearchOp.search (some "mumbai".toList) none 50 0])).cache = [] :=
  ⟨((claim_C9_cache_correctness_amended exHotels
        [SearchOp.search (some "mumbai".toList) none 50 0] _ rfl).1
      (some "mumbai".toList) none 50 30 [hMumbaiGrand, hRoyal] 60
      (by rfl) (by decide)).1,
    ((claim_C9_cache_correctness_amended exHotels
        [SearchOp.search (some "mumbai".toList) none 50 0] _ rfl).1
      (some "mumbai".toList) none 50 30 [hMumbaiGrand, hRoyal] 60
      (by rfl) (by decide)).2.2.2 (by decide) (by decide),
    (claim_C9_cache_correctness_amended exHotels
        [SearchOp.search (some "mumbai".toList) none 50 0] _ rfl).2.1⟩

end HotelBooking
